import Mathlib

/-!
# Verification of the PoCForgeWeb backend against its specification

Shallow embedding of `src/backend/main.py` (the single source file of the
repository): the pydantic data model, the `/analyze` request handler
`analyze_cve`, its exception-mapping clauses, and the `/` handler `root`.
JSON values are modelled as trees of the inductive `Json`; floating-point
numbers carry exact rationals (the only float in the program is the literal
`100.0`, which is exact).

The bridge to the external generator described by the specification is not
present in the source (the `subprocess.run` invocation is commented out,
lines 81-84); where a claim is decided by that missing code, it is modelled
from the specification's words, marked `Modelled from the spec:`.
-/

/- ## Data model (pydantic models, `main.py` lines 19-76) -/

/-- `AnalyzeRequest` (main.py line 19-20): the POST /analyze body. -/
structure AnalyzeRequest where
  cve_id : String
deriving DecidableEq

/-- `Commit` (main.py lines 22-27). -/
structure Commit where
  url : String
  sha : String
  message : String
  repo : String
  date : String
deriving DecidableEq

/-- `PoC` (main.py lines 29-39). `Optional[str]` fields become `Option String`. -/
structure PoC where
  commit_url : String
  commit_sha : String
  vulnerable_function : Option String
  attack_vector : String
  vulnerable_code : Option String
  fixed_code : Option String
  test_case : Option String
  prerequisites : List String
  reasoning : String
  method : String
deriving DecidableEq

/-- `Package` (main.py lines 41-47). -/
structure Package where
  name : String
  ecosystem : String
  vulnerable_versions : String
  patched_versions : String
  commits : List Commit
  pocs : List PoC
deriving DecidableEq

/-- `CVE` (main.py lines 49-55). -/
structure CVE where
  cve_id : String
  summary : String
  severity : String
  published_at : String
  packages : List Package
  pocs_generated : Int
deriving DecidableEq

/-- `Summary` (main.py lines 57-61). The python `float` field `success_rate`
is modelled as an exact rational. -/
structure Summary where
  total_cves : Int
  total_packages : Int
  pocs_generated : Int
  success_rate : Rat
deriving DecidableEq

/-- `SearchParams` (main.py lines 63-66). -/
structure SearchParams where
  hours : Int
  target_cve : String
  timestamp : String
deriving DecidableEq

/-- `PoCForgeResponse` (main.py lines 68-71): the top-level `AnalysisResult`
envelope `{search_params, cves, summary}`. -/
structure PoCForgeResponse where
  search_params : SearchParams
  cves : List CVE
  summary : Summary
deriving DecidableEq

/-- `AnalyzeResponse` (main.py lines 73-76): `{success, data?, error?}`. -/
structure AnalyzeResponse where
  success : Bool
  data : Option PoCForgeResponse := none
  error : Option String := none
deriving DecidableEq

/- ## The analyze handler (main.py lines 78-146) -/

/-- `fastapi.HTTPException(status_code=..., detail=...)` as raised by the
`except` clauses of `analyze_cve` (main.py lines 143-146). -/
structure HTTPException where
  status_code : Nat
  detail : String
deriving DecidableEq

/-- The exceptions the `except` clauses of `analyze_cve` distinguish:
`subprocess.TimeoutExpired` (line 143) and any other `Exception` with
message `str(e)` (line 145). -/
inductive PyExc where
  | timeoutExpired : PyExc
  | other : String → PyExc
deriving DecidableEq

/-- The `except` clauses of `analyze_cve` (main.py lines 143-146):
`subprocess.TimeoutExpired` is mapped to `HTTPException(408, "Analysis
timeout")`; any other exception `e` to
`HTTPException(500, f"Analysis failed: \x7bstr(e)\x7d")`. -/
def analyze_cve_except : PyExc → HTTPException
  | PyExc.timeoutExpired => { status_code := 408, detail := "Analysis timeout" }
  | PyExc.other msg => { status_code := 500, detail := "Analysis failed: " ++ msg }

/-- The ambient environment a request handler runs in; the handler could read
the wall clock from it, but `analyze_cve` never does (every date and
timestamp it emits is a string literal of main.py). -/
structure Env where
  now : String
deriving DecidableEq

/-- The local `mock_response` value constructed by `analyze_cve`
(main.py lines 86-139), as a function of `request.cve_id`. Every other
field is a literal of the source. -/
def mock_response (cve_id : String) : PoCForgeResponse :=
  { search_params :=
      { hours := 24
        target_cve := cve_id
        timestamp := "2025-07-09T07:28:55.488209+00:00" }
    cves :=
      [ { cve_id := cve_id
          summary := "Mock vulnerability in example package"
          severity := "HIGH"
          published_at := "2025-07-08T20:47:53+00:00"
          packages :=
            [ { name := "example-package"
                ecosystem := "npm"
                vulnerable_versions := "< 2.5.0"
                patched_versions := "2.5.0"
                commits :=
                  [ { url := "https://github.com/example/repo/commit/abc123"
                      sha := "abc123"
                      message := "Fix vulnerability in example function"
                      repo := "example/repo"
                      date := "2025-07-08" } ]
                pocs :=
                  [ { commit_url := "https://github.com/example/repo/commit/abc123"
                      commit_sha := "abc123"
                      vulnerable_function := some "executeCommand"
                      attack_vector := "Command injection via malicious input"
                      vulnerable_code := some "const result = execSync(userInput);"
                      fixed_code := some "const result = execFileSync(command, args);"
                      test_case := some "const malicious = \"ls; rm -rf /\"; executeCommand(malicious);"
                      prerequisites := ["Access to vulnerable function", "Valid input parameters"]
                      reasoning := "The original code used string concatenation with execSync which allows command injection"
                      method := "git_extraction" } ] } ]
          pocs_generated := 1 } ]
    summary :=
      { total_cves := 1
        total_packages := 1
        pocs_generated := 1
        success_rate := 100 } }

/-- The outcome of one run of the `/analyze` handler: the value returned (or
the `HTTPException` raised) together with the argument vectors of every
child process spawned during the run. -/
structure HandlerResult where
  result : Except HTTPException AnalyzeResponse
  spawned : List (List String)

/-- The `/analyze` handler `analyze_cve` (main.py lines 78-146).  The `try`
body only constructs `mock_response` and returns
`AnalyzeResponse(success=True, data=mock_response)` (line 141); it performs
no validation of `request.cve_id`, spawns no subprocess (the `subprocess.run`
call is commented out, lines 81-84), never reads the clock, and cannot
raise, so the `except` clauses (`analyze_cve_except`) are unreachable. -/
def analyze_cve (_env : Env) (request : AnalyzeRequest) : HandlerResult :=
  { result := Except.ok
      { success := true
        data := some (mock_response request.cve_id)
        error := none }
    spawned := [] }

/-- The message string the `/` handler `root` returns (main.py line 150);
the handler itself, `root`, is defined below once `Json` is declared. -/
def rootMessage : String :=
  "PoCForge Web API"

/- ## The CVE identifier pattern of the specification -/

/-- Digit-part of the CVE pattern: `\d\x7b4\x7d-\d\x7b4,\x7d` — a 4-digit
year, a dash, then at least 4 digits. -/
def cveDigits : List Char → Bool
  | y1 :: y2 :: y3 :: y4 :: '-' :: seq =>
      y1.isDigit && y2.isDigit && y3.isDigit && y4.isDigit &&
        decide (4 ≤ seq.length) && seq.all Char.isDigit
  | _ => false

/-- The specification's CVE identifier pattern
`^[Cc][Vv][Ee]-\d\x7b4\x7d-\d\x7b4,\x7d$` (equivalently,
`^CVE-\d\x7b4\x7d-\d\x7b4,\x7d$` after uppercasing). -/
def matchesCvePattern (s : String) : Bool :=
  match s.toList with
  | c :: v :: e :: '-' :: rest =>
      (c == 'C' || c == 'c') && (v == 'V' || v == 'v') && (e == 'E' || e == 'e') &&
        cveDigits rest
  | _ => false

example : matchesCvePattern "CVE-2024-1234" = true := by decide
example : matchesCvePattern "cve-2024-1234" = true := by decide
example : matchesCvePattern "" = false := by decide
example : matchesCvePattern "CVE-24-1234" = false := by decide
example : matchesCvePattern "CVE-2024-12" = false := by decide
example : matchesCvePattern "NOT-A-CVE" = false := by decide
example : matchesCvePattern "cve-2024-000001234" = true := by decide

/- ## JSON values and the (de)serialization of the data model

Pydantic serializes a model to a JSON object whose keys are the field names,
`Optional` fields to `null` or the value, lists to arrays, `int` to a JSON
integer, `float` to a JSON number, and validates JSON back into the model by
looking each required field up by key. JSON values are modelled as trees;
numbers carry exact rationals. -/

inductive Json where
  | null : Json
  | bool : Bool → Json
  | num : Rat → Json
  | str : String → Json
  | arr : List Json → Json
  | obj : List (String × Json) → Json

/-- Field lookup in a JSON object (pydantic validation reads fields by name;
order of keys is irrelevant). -/
def Json.getField : Json → String → Option Json
  | Json.obj fields, k => fields.lookup k
  | _, _ => none

def decodeStr : Option Json → Option String
  | some (Json.str s) => some s
  | _ => none

def decodeOptStr : Option Json → Option (Option String)
  | some Json.null => some none
  | some (Json.str s) => some (some s)
  | _ => none

def decodeBool : Option Json → Option Bool
  | some (Json.bool b) => some b
  | _ => none

def decodeInt : Option Json → Option Int
  | some (Json.num q) => if q.den = 1 then some q.num else none
  | _ => none

def decodeRat : Option Json → Option Rat
  | some (Json.num q) => some q
  | _ => none

/-- Decode every element of a JSON array, failing if any element fails. -/
def decodeListWith (d : Json → Option α) : List Json → Option (List α)
  | [] => some []
  | j :: js =>
      match d j, decodeListWith d js with
      | some a, some as => some (a :: as)
      | _, _ => none

def decodeArr (d : Json → Option α) : Option Json → Option (List α)
  | some (Json.arr js) => decodeListWith d js
  | _ => none

def encodeOptStr : Option String → Json
  | none => Json.null
  | some s => Json.str s

def encodeStrList (xs : List String) : Json :=
  Json.arr (xs.map Json.str)

def decodeStrElem : Json → Option String
  | Json.str s => some s
  | _ => none

def Commit.toJson (c : Commit) : Json :=
  Json.obj
    [ ("url", Json.str c.url)
    , ("sha", Json.str c.sha)
    , ("message", Json.str c.message)
    , ("repo", Json.str c.repo)
    , ("date", Json.str c.date) ]

def Commit.fromJson (j : Json) : Option Commit :=
  match decodeStr (j.getField "url"), decodeStr (j.getField "sha"),
        decodeStr (j.getField "message"), decodeStr (j.getField "repo"),
        decodeStr (j.getField "date") with
  | some u, some s, some m, some r, some d =>
      some { url := u, sha := s, message := m, repo := r, date := d }
  | _, _, _, _, _ => none

def PoC.toJson (p : PoC) : Json :=
  Json.obj
    [ ("commit_url", Json.str p.commit_url)
    , ("commit_sha", Json.str p.commit_sha)
    , ("vulnerable_function", encodeOptStr p.vulnerable_function)
    , ("attack_vector", Json.str p.attack_vector)
    , ("vulnerable_code", encodeOptStr p.vulnerable_code)
    , ("fixed_code", encodeOptStr p.fixed_code)
    , ("test_case", encodeOptStr p.test_case)
    , ("prerequisites", encodeStrList p.prerequisites)
    , ("reasoning", Json.str p.reasoning)
    , ("method", Json.str p.method) ]

def PoC.fromJson (j : Json) : Option PoC :=
  match decodeStr (j.getField "commit_url"), decodeStr (j.getField "commit_sha"),
        decodeOptStr (j.getField "vulnerable_function"),
        decodeStr (j.getField "attack_vector"),
        decodeOptStr (j.getField "vulnerable_code"),
        decodeOptStr (j.getField "fixed_code"),
        decodeOptStr (j.getField "test_case"),
        decodeArr decodeStrElem (j.getField "prerequisites"),
        decodeStr (j.getField "reasoning"), decodeStr (j.getField "method") with
  | some cu, some cs, some vf, some av, some vc, some fc, some tc, some pr,
    some re, some me =>
      some { commit_url := cu, commit_sha := cs, vulnerable_function := vf
             attack_vector := av, vulnerable_code := vc, fixed_code := fc
             test_case := tc, prerequisites := pr, reasoning := re, method := me }
  | _, _, _, _, _, _, _, _, _, _ => none

def Package.toJson (p : Package) : Json :=
  Json.obj
    [ ("name", Json.str p.name)
    , ("ecosystem", Json.str p.ecosystem)
    , ("vulnerable_versions", Json.str p.vulnerable_versions)
    , ("patched_versions", Json.str p.patched_versions)
    , ("commits", Json.arr (p.commits.map Commit.toJson))
    , ("pocs", Json.arr (p.pocs.map PoC.toJson)) ]

def Package.fromJson (j : Json) : Option Package :=
  match decodeStr (j.getField "name"), decodeStr (j.getField "ecosystem"),
        decodeStr (j.getField "vulnerable_versions"),
        decodeStr (j.getField "patched_versions"),
        decodeArr Commit.fromJson (j.getField "commits"),
        decodeArr PoC.fromJson (j.getField "pocs") with
  | some n, some e, some vv, some pv, some cs, some ps =>
      some { name := n, ecosystem := e, vulnerable_versions := vv
             patched_versions := pv, commits := cs, pocs := ps }
  | _, _, _, _, _, _ => none

def CVE.toJson (c : CVE) : Json :=
  Json.obj
    [ ("cve_id", Json.str c.cve_id)
    , ("summary", Json.str c.summary)
    , ("severity", Json.str c.severity)
    , ("published_at", Json.str c.published_at)
    , ("packages", Json.arr (c.packages.map Package.toJson))
    , ("pocs_generated", Json.num (c.pocs_generated : Rat)) ]

def CVE.fromJson (j : Json) : Option CVE :=
  match decodeStr (j.getField "cve_id"), decodeStr (j.getField "summary"),
        decodeStr (j.getField "severity"), decodeStr (j.getField "published_at"),
        decodeArr Package.fromJson (j.getField "packages"),
        decodeInt (j.getField "pocs_generated") with
  | some ci, some su, some se, some pa, some pk, some pg =>
      some { cve_id := ci, summary := su, severity := se, published_at := pa
             packages := pk, pocs_generated := pg }
  | _, _, _, _, _, _ => none

def Summary.toJson (s : Summary) : Json :=
  Json.obj
    [ ("total_cves", Json.num (s.total_cves : Rat))
    , ("total_packages", Json.num (s.total_packages : Rat))
    , ("pocs_generated", Json.num (s.pocs_generated : Rat))
    , ("success_rate", Json.num s.success_rate) ]

def Summary.fromJson (j : Json) : Option Summary :=
  match decodeInt (j.getField "total_cves"), decodeInt (j.getField "total_packages"),
        decodeInt (j.getField "pocs_generated"), decodeRat (j.getField "success_rate") with
  | some tc, some tp, some pg, some sr =>
      some { total_cves := tc, total_packages := tp, pocs_generated := pg
             success_rate := sr }
  | _, _, _, _ => none

def SearchParams.toJson (s : SearchParams) : Json :=
  Json.obj
    [ ("hours", Json.num (s.hours : Rat))
    , ("target_cve", Json.str s.target_cve)
    , ("timestamp", Json.str s.timestamp) ]

def SearchParams.fromJson (j : Json) : Option SearchParams :=
  match decodeInt (j.getField "hours"), decodeStr (j.getField "target_cve"),
        decodeStr (j.getField "timestamp") with
  | some h, some tc, some ts => some { hours := h, target_cve := tc, timestamp := ts }
  | _, _, _ => none

def PoCForgeResponse.toJson (r : PoCForgeResponse) : Json :=
  Json.obj
    [ ("search_params", SearchParams.toJson r.search_params)
    , ("cves", Json.arr (r.cves.map CVE.toJson))
    , ("summary", Summary.toJson r.summary) ]

def PoCForgeResponse.fromJson (j : Json) : Option PoCForgeResponse :=
  match (j.getField "search_params").bind SearchParams.fromJson,
        decodeArr CVE.fromJson (j.getField "cves"),
        (j.getField "summary").bind Summary.fromJson with
  | some sp, some cv, some su => some { search_params := sp, cves := cv, summary := su }
  | _, _, _ => none

def AnalyzeResponse.toJson (r : AnalyzeResponse) : Json :=
  Json.obj
    [ ("success", Json.bool r.success)
    , ("data", match r.data with
               | none => Json.null
               | some d => PoCForgeResponse.toJson d)
    , ("error", encodeOptStr r.error) ]

def decodeOptData : Option Json → Option (Option PoCForgeResponse)
  | some Json.null => some none
  | some j => (PoCForgeResponse.fromJson j).map some
  | none => none

def AnalyzeResponse.fromJson (j : Json) : Option AnalyzeResponse :=
  match decodeBool (j.getField "success"), decodeOptData (j.getField "data"),
        decodeOptStr (j.getField "error") with
  | some s, some d, some e => some { success := s, data := d, error := e }
  | _, _, _ => none

/-- How FastAPI surfaces a raised `HTTPException` to the client: the status
code together with the JSON body `\x7b"detail": <detail string>\x7d`. -/
def renderHTTPException (e : HTTPException) : Nat × Json :=
  (e.status_code, Json.obj [("detail", Json.str e.detail)])

/- ## The bridge to the external generator, modelled from the specification

The `subprocess.run` invocation is commented out in `analyze_cve`
(main.py lines 81-84); only its `except` clauses survive in the source.
The bridge itself is therefore modelled from spec section 4.2. -/

/-- Modelled from the spec: the observable behaviour of one run of the
external generator process (missing from src; the invocation is commented
out in main.py lines 81-84) — its wall-clock duration in seconds, exit
status, and captured standard output and standard error text. -/
structure ProcBehavior where
  durationSec : Nat
  exitCode : Int
  stdout : String
  stderr : String
deriving DecidableEq

/-- Modelled from the spec: the bridge's error taxonomy (spec section 7):
`TimeoutError`, `ProcessFailedError` carrying the subprocess's standard-error
text, `MalformedOutputError` carrying the parse-failure detail, and
`SchemaMismatchError`. -/
inductive BridgeError where
  | timeout : BridgeError
  | processFailed : String → BridgeError
  | malformedOutput : String → BridgeError
  | schemaMismatch : BridgeError
deriving DecidableEq

/-- Modelled from the spec: the hard wall-clock timeout of the bridge,
"300 seconds in the reference behavior" (also the `timeout=300` of the
commented-out `subprocess.run` call, main.py line 84). -/
def bridgeTimeoutSec : Nat := 300

/-- Modelled from the spec: what a bridge run leaves behind — the typed
result and whether a child process is still running afterward. -/
structure BridgeOutcome where
  result : Except BridgeError PoCForgeResponse
  childRunning : Bool

/-- Modelled from the spec: the bridge (spec section 4.2, missing from src —
the subprocess invocation is commented out in main.py lines 81-84). If the
process exceeds the timeout, the child is terminated and a `TimeoutError`
results, no output being consulted; otherwise a non-zero exit status yields
`ProcessFailedError` with the standard-error text, standard output never
being parsed; otherwise standard output is parsed as JSON (`parse` is the
text-to-JSON reading, a parameter so that the theorems hold for every such
reading) and validated against the `AnalysisResult` schema by the real
decoder `PoCForgeResponse.fromJson`. -/
def runBridge (parse : String → Option Json) (p : ProcBehavior) : BridgeOutcome :=
  if bridgeTimeoutSec < p.durationSec then
    { result := Except.error BridgeError.timeout, childRunning := false }
  else if p.exitCode ≠ 0 then
    { result := Except.error (BridgeError.processFailed p.stderr), childRunning := false }
  else
    match parse p.stdout with
    | none =>
        { result := Except.error (BridgeError.malformedOutput p.stdout), childRunning := false }
    | some j =>
        match PoCForgeResponse.fromJson j with
        | none => { result := Except.error BridgeError.schemaMismatch, childRunning := false }
        | some r => { result := Except.ok r, childRunning := false }

/-- Modelled from the spec: the human-readable message attached to each
bridge failure (spec section 7); a `ProcessFailedError` message carries the
subprocess's standard-error text. -/
def bridgeErrorMessage : BridgeError → String
  | BridgeError.timeout => "Analysis timeout"
  | BridgeError.processFailed stderrText => "Analysis failed: " ++ stderrText
  | BridgeError.malformedOutput out => "Analysis output was not valid JSON: " ++ out
  | BridgeError.schemaMismatch => "Analysis output did not match the expected schema"

/-- Modelled from the spec: conversion of a bridge result into the
`AnalysisResponse` envelope — `\x7bsuccess: true, data: <result>\x7d` on
success, `\x7bsuccess: false, error: <message>\x7d` on failure
(spec sections 3 and 6). -/
def bridgeEnvelope : Except BridgeError PoCForgeResponse → AnalyzeResponse
  | Except.ok r => { success := true, data := some r, error := none }
  | Except.error e => { success := false, data := none, error := some (bridgeErrorMessage e) }

/-- The `/` handler `root` (main.py lines 148-150): returns the JSON object
`\x7b"message": "PoCForge Web API"\x7d` unconditionally; it is total, never
raises and never reads its environment. -/
def root (_env : Env) : Json :=
  Json.obj [("message", Json.str rootMessage)]

/- ## Helper lemmas: JSON decoding inverts encoding -/

theorem decodeListWith_map (d : Json → Option α) (e : α → Json)
    (h : ∀ x, d (e x) = some x) (xs : List α) :
    decodeListWith d (xs.map e) = some xs := by
  induction xs with
  | nil => rfl
  | cons x xs ih => simp [decodeListWith, h, ih]

theorem decodeArr_map (d : Json → Option α) (e : α → Json)
    (h : ∀ x, d (e x) = some x) (xs : List α) :
    decodeArr d (some (Json.arr (xs.map e))) = some xs := by
  simp [decodeArr, decodeListWith_map d e h]

theorem decodeOptStr_encodeOptStr (v : Option String) :
    decodeOptStr (some (encodeOptStr v)) = some v := by
  cases v <;> rfl

theorem decodeArr_encodeStrList (xs : List String) :
    decodeArr decodeStrElem (some (encodeStrList xs)) = some xs := by
  simpa [encodeStrList] using decodeArr_map decodeStrElem Json.str (fun _ => rfl) xs

theorem decodeInt_intCast (n : Int) :
    decodeInt (some (Json.num (n : Rat))) = some n := by
  simp [decodeInt, Rat.den_intCast, Rat.num_intCast]

theorem commit_fromJson_toJson (c : Commit) :
    Commit.fromJson (Commit.toJson c) = some c := rfl

theorem poc_fromJson_toJson (p : PoC) :
    PoC.fromJson (PoC.toJson p) = some p := by
  simp [PoC.toJson, PoC.fromJson, Json.getField, List.lookup, decodeStr,
    decodeOptStr_encodeOptStr, decodeArr_encodeStrList]

theorem package_fromJson_toJson (p : Package) :
    Package.fromJson (Package.toJson p) = some p := by
  simp [Package.toJson, Package.fromJson, Json.getField, List.lookup, decodeStr,
    decodeArr_map Commit.fromJson Commit.toJson commit_fromJson_toJson,
    decodeArr_map PoC.fromJson PoC.toJson poc_fromJson_toJson]

theorem cve_fromJson_toJson (c : CVE) :
    CVE.fromJson (CVE.toJson c) = some c := by
  simp [CVE.toJson, CVE.fromJson, Json.getField, List.lookup, decodeStr,
    decodeInt_intCast,
    decodeArr_map Package.fromJson Package.toJson package_fromJson_toJson]

theorem summary_fromJson_toJson (s : Summary) :
    Summary.fromJson (Summary.toJson s) = some s := by
  simp [Summary.toJson, Summary.fromJson, Json.getField, List.lookup,
    decodeInt_intCast, decodeRat]

theorem searchParams_fromJson_toJson (s : SearchParams) :
    SearchParams.fromJson (SearchParams.toJson s) = some s := by
  simp [SearchParams.toJson, SearchParams.fromJson, Json.getField, List.lookup,
    decodeStr, decodeInt_intCast]

/- ## Claim theorems -/

/-- C1 counterexample: `"NOT-A-CVE"` does not match the CVE pattern, yet the
analyze operation does not fail with a validation error — it returns a
success response built from the mock, and spawns nothing. -/
theorem C1_counterexample :
    matchesCvePattern "NOT-A-CVE" = false ∧
    (analyze_cve { now := "" } { cve_id := "NOT-A-CVE" }).result =
      Except.ok
        { success := true, data := some (mock_response "NOT-A-CVE"), error := none } ∧
    (analyze_cve { now := "" } { cve_id := "NOT-A-CVE" }).spawned = [] :=
  ⟨by decide, rfl, rfl⟩

/-- C1 (amended): for every input string that does not match the CVE pattern,
the analyze operation performs no validation at all — it returns a success
response and never raises an `HTTPException` (so no `ValidationError` and no
client-error response ever occurs). -/
theorem C1_no_validation (env : Env) (req : AnalyzeRequest)
    (h : matchesCvePattern req.cve_id = false) :
    (analyze_cve env req).result =
      Except.ok
        { success := true, data := some (mock_response req.cve_id), error := none } ∧
    ∀ ex : HTTPException, (analyze_cve env req).result ≠ Except.error ex := by
  refine ⟨rfl, fun ex h2 => ?_⟩
  simp [analyze_cve] at h2

/-- C1 witness: instantiation of `C1_no_validation` at the non-matching
input `"NOT-A-CVE"`. -/
theorem C1_no_validation_witness :
    matchesCvePattern "NOT-A-CVE" = false ∧
    ((analyze_cve { now := "w" } { cve_id := "NOT-A-CVE" }).result =
      Except.ok
        { success := true, data := some (mock_response "NOT-A-CVE"), error := none } ∧
    ∀ ex : HTTPException,
      (analyze_cve { now := "w" } { cve_id := "NOT-A-CVE" }).result ≠ Except.error ex) :=
  ⟨by decide, C1_no_validation { now := "w" } { cve_id := "NOT-A-CVE" } (by decide)⟩

/-- C2 counterexample: `"cve-2024-1234"` matches the case-insensitive CVE
pattern and is accepted, but the identifier used for the subsequent work is
the input verbatim, `"cve-2024-1234"`, not the uppercased normalization
`"CVE-2024-1234"`. -/
theorem C2_counterexample :
    matchesCvePattern "cve-2024-1234" = true ∧
    (analyze_cve { now := "" } { cve_id := "cve-2024-1234" }).result =
      Except.ok
        { success := true, data := some (mock_response "cve-2024-1234"), error := none } ∧
    (mock_response "cve-2024-1234").search_params.target_cve = "cve-2024-1234" ∧
    (mock_response "cve-2024-1234").search_params.target_cve ≠ "CVE-2024-1234" :=
  ⟨by decide, rfl, rfl, by decide⟩

/-- C2 (amended): every string matching the case-insensitive CVE pattern is
accepted by the analyze operation, and the CVE identifier used for the
subsequent work (`search_params.target_cve` and `cves[0].cve_id`) is the
client's input verbatim — no uppercase normalization is applied. -/
theorem C2_accepted_verbatim (env : Env) (req : AnalyzeRequest)
    (h : matchesCvePattern req.cve_id = true) :
    (analyze_cve env req).result =
      Except.ok
        { success := true, data := some (mock_response req.cve_id), error := none } ∧
    (mock_response req.cve_id).search_params.target_cve = req.cve_id ∧
    (mock_response req.cve_id).cves.map CVE.cve_id = [req.cve_id] :=
  ⟨rfl, rfl, rfl⟩

/-- C2 witness: instantiation of `C2_accepted_verbatim` at the matching
lowercase input `"cve-2024-1234"`. -/
theorem C2_accepted_verbatim_witness :
    matchesCvePattern "cve-2024-1234" = true ∧
    ((analyze_cve { now := "w" } { cve_id := "cve-2024-1234" }).result =
      Except.ok
        { success := true, data := some (mock_response "cve-2024-1234"), error := none } ∧
    (mock_response "cve-2024-1234").search_params.target_cve = "cve-2024-1234" ∧
    (mock_response "cve-2024-1234").cves.map CVE.cve_id = ["cve-2024-1234"]) :=
  ⟨by decide,
    C2_accepted_verbatim { now := "w" } { cve_id := "cve-2024-1234" } (by decide)⟩

/-- C3 counterexample: the body FastAPI sends for the timeout failure path of
`analyze_cve` is `\x7b"detail": "Analysis timeout"\x7d`, which does not parse
as an `AnalyzeResponse` at all (it has no `success` and no `error` field), so
a failure is not surfaced as an `AnalysisResponse` with `success = false`. -/
theorem C3_counterexample :
    (renderHTTPException (analyze_cve_except PyExc.timeoutExpired)).2 =
      Json.obj [("detail", Json.str "Analysis timeout")] ∧
    AnalyzeResponse.fromJson
      (renderHTTPException (analyze_cve_except PyExc.timeoutExpired)).2 = none :=
  ⟨rfl, rfl⟩

/-- C3 (amended): every failure the analyze handler can catch is converted
into an `HTTPException` rendered as the structured JSON body
`\x7b"detail": <human-readable string>\x7d` with status 408 or 500 — never a
raw stack trace — but that body is not an `AnalysisResponse` envelope; and in
the current code the handler body never fails at all: every request returns
the success envelope. -/
theorem C3_failures_structured_not_envelope (e : PyExc) :
    ((renderHTTPException (analyze_cve_except e)).1 = 408 ∨
      (renderHTTPException (analyze_cve_except e)).1 = 500) ∧
    (renderHTTPException (analyze_cve_except e)).2 =
      Json.obj [("detail", Json.str (analyze_cve_except e).detail)] ∧
    ∀ env req, (analyze_cve env req).result =
      Except.ok
        { success := true, data := some (mock_response req.cve_id), error := none } := by
  refine ⟨?_, rfl, fun env req => rfl⟩
  cases e with
  | timeoutExpired => exact Or.inl rfl
  | other msg => exact Or.inr rfl

/-- C4: a run of the external generator exceeding the 300-second budget is
classified as a `TimeoutError` by the bridge (modelled from the spec, the
invocation being commented out in the source), with no output consulted and
no child process left running; the in-source `except` clause gives the
timeout its own 408 request-timeout status, distinct from the generic 500. -/
theorem C4_timeout_distinct_status (parse : String → Option Json)
    (p : ProcBehavior) (msg : String) (h : bridgeTimeoutSec < p.durationSec) :
    runBridge parse p =
      { result := Except.error BridgeError.timeout, childRunning := false } ∧
    bridgeEnvelope (runBridge parse p).result =
      { success := false, data := none, error := some "Analysis timeout" } ∧
    analyze_cve_except PyExc.timeoutExpired =
      { status_code := 408, detail := "Analysis timeout" } ∧
    (analyze_cve_except (PyExc.other msg)).status_code = 500 ∧
    (analyze_cve_except PyExc.timeoutExpired).status_code ≠
      (analyze_cve_except (PyExc.other msg)).status_code := by
  have hb : runBridge parse p =
      { result := Except.error BridgeError.timeout, childRunning := false } := by
    unfold runBridge
    rw [if_pos h]
  exact ⟨hb, by rw [hb]; rfl, rfl, rfl, by simp [analyze_cve_except]⟩

/-- C4 witness: instantiation of `C4_timeout_distinct_status` at a process
running 301 seconds. -/
theorem C4_timeout_distinct_status_witness :
    bridgeTimeoutSec < (ProcBehavior.mk 301 0 "" "").durationSec ∧
    (runBridge (fun _ => none) (ProcBehavior.mk 301 0 "" "") =
      { result := Except.error BridgeError.timeout, childRunning := false } ∧
    bridgeEnvelope (runBridge (fun _ => none) (ProcBehavior.mk 301 0 "" "")).result =
      { success := false, data := none, error := some "Analysis timeout" } ∧
    analyze_cve_except PyExc.timeoutExpired =
      { status_code := 408, detail := "Analysis timeout" } ∧
    (analyze_cve_except (PyExc.other "x")).status_code = 500 ∧
    (analyze_cve_except PyExc.timeoutExpired).status_code ≠
      (analyze_cve_except (PyExc.other "x")).status_code) :=
  ⟨by decide,
    C4_timeout_distinct_status (fun _ => none) (ProcBehavior.mk 301 0 "" "") "x"
      (by decide)⟩

/-- C5: a within-budget run of the external generator that exits non-zero is
classified by the bridge (modelled from the spec) as `ProcessFailedError`
carrying the standard-error text; the resulting envelope is
`\x7bsuccess: false, error: <string containing the standard-error text>\x7d`,
and the result never depends on standard output (the outcome is a constant in
`stdout` and in the parse function, so standard output is not parsed). -/
theorem C5_nonzero_exit_stderr (parse : String → Option Json) (p : ProcBehavior)
    (hdur : p.durationSec ≤ bridgeTimeoutSec) (hexit : p.exitCode ≠ 0) :
    runBridge parse p =
      { result := Except.error (BridgeError.processFailed p.stderr),
        childRunning := false } ∧
    bridgeEnvelope (runBridge parse p).result =
      { success := false, data := none,
        error := some ("Analysis failed: " ++ p.stderr) } ∧
    ∃ pre, "Analysis failed: " ++ p.stderr = pre ++ p.stderr := by
  have hb : runBridge parse p =
      { result := Except.error (BridgeError.processFailed p.stderr),
        childRunning := false } := by
    unfold runBridge
    rw [if_neg (not_lt.mpr hdur), if_pos hexit]
  exact ⟨hb, by rw [hb]; rfl, ⟨"Analysis failed: ", rfl⟩⟩

/-- C5 witness: instantiation of `C5_nonzero_exit_stderr` at a process that
exits with status 1 after 1 second, writing `"boom"` to standard error. -/
theorem C5_nonzero_exit_stderr_witness :
    (ProcBehavior.mk 1 1 "ignored" "boom").durationSec ≤ bridgeTimeoutSec ∧
    (ProcBehavior.mk 1 1 "ignored" "boom").exitCode ≠ 0 ∧
    (runBridge (fun _ => none) (ProcBehavior.mk 1 1 "ignored" "boom") =
      { result := Except.error (BridgeError.processFailed "boom"),
        childRunning := false } ∧
    bridgeEnvelope
        (runBridge (fun _ => none) (ProcBehavior.mk 1 1 "ignored" "boom")).result =
      { success := false, data := none,
        error := some ("Analysis failed: " ++ "boom") } ∧
    ∃ pre, "Analysis failed: " ++ "boom" = pre ++ "boom") :=
  ⟨by decide, by decide,
    C5_nonzero_exit_stderr (fun _ => none) (ProcBehavior.mk 1 1 "ignored" "boom")
      (by decide) (by decide)⟩

/-- C6: posting `\x7b"cve_id": "CVE-2024-1234"\x7d` to the analyze handler —
whose bridge is the hardcoded example fixture `mock_response` — yields a
success envelope whose `summary.success_rate` is `100.0` and whose
`cves[0].packages[0].pocs[0].method` is `"git_extraction"`. -/
theorem C6_fixture_scenario (env : Env) :
    (analyze_cve env { cve_id := "CVE-2024-1234" }).result =
      Except.ok
        { success := true, data := some (mock_response "CVE-2024-1234"),
          error := none } ∧
    (mock_response "CVE-2024-1234").summary.success_rate = 100 ∧
    (((mock_response "CVE-2024-1234").cves.head?.bind
        (fun c => c.packages.head?)).bind (fun pk => pk.pocs.head?)).map
      (fun poc => poc.method) = some "git_extraction" :=
  ⟨rfl, rfl, rfl⟩

/-- C7: serializing any `AnalysisResult` (`PoCForgeResponse`) to JSON and
validating the JSON back yields the original value, field for field. -/
theorem C7_serialization_roundtrip (r : PoCForgeResponse) :
    PoCForgeResponse.fromJson (PoCForgeResponse.toJson r) = some r := by
  simp [PoCForgeResponse.toJson, PoCForgeResponse.fromJson, Json.getField,
    List.lookup, searchParams_fromJson_toJson, summary_fromJson_toJson,
    decodeArr_map CVE.fromJson CVE.toJson cve_fromJson_toJson]

/-- C8: the `/` handler always succeeds and returns the JSON object
`\x7b"message": "PoCForge Web API"\x7d`, for every invocation. -/
theorem C8_root_identity (env : Env) :
    root env = Json.obj [("message", Json.str rootMessage)] ∧
    rootMessage = "PoCForge Web API" :=
  ⟨rfl, rfl⟩

/-- C9: for every input string supplied as `cve_id`, the analyze handler
returns success with the fixed mock data in which `search_params.target_cve`
and `cves[0].cve_id` are the input verbatim, the error field is `none`, and
no child process is spawned. -/
theorem C9_mock_for_every_input (env : Env) (req : AnalyzeRequest) :
    (analyze_cve env req).result =
      Except.ok
        { success := true, data := some (mock_response req.cve_id), error := none } ∧
    (analyze_cve env req).spawned = [] ∧
    (mock_response req.cve_id).search_params.target_cve = req.cve_id ∧
    (mock_response req.cve_id).cves.map CVE.cve_id = [req.cve_id] :=
  ⟨rfl, rfl, rfl, rfl⟩

/-- C10: the analyze handler is deterministic — two invocations with the same
`cve_id` under any two environments (in particular, any two clock readings)
give identical results, and the timestamp, publication and commit date
strings in the response are the hardcoded literals of the source, not values
derived from the clock. -/
theorem C10_deterministic_hardcoded_time (env1 env2 : Env) (req : AnalyzeRequest) :
    analyze_cve env1 req = analyze_cve env2 req ∧
    (mock_response req.cve_id).search_params.timestamp =
      "2025-07-09T07:28:55.488209+00:00" ∧
    (mock_response req.cve_id).cves.map CVE.published_at =
      ["2025-07-08T20:47:53+00:00"] ∧
    (mock_response req.cve_id).cves.map
      (fun c => c.packages.map (fun pk => pk.commits.map Commit.date)) =
        [[["2025-07-08"]]] :=
  ⟨rfl, rfl, rfl, rfl⟩
